import Mathlib

/-!
Shallow embedding of the product-discovery / cart-construction pipeline:
the merchant agent's catalog sub-agent (`catalog_agent.py`), the Best Buy
catalog client (`bestbuy_client.py`), and the shopper tools
(`shopper/tools.py`).

External effects (the Gemini ranking / generation calls, the Best Buy HTTP
call) are modelled as explicit inputs: an `Option` value is `none` when the
call raised an exception, `some r` when it returned `r`.  Monetary values
are rationals; timestamps are natural numbers counting seconds.
-/

namespace AP2

/-- A monetary amount: currency code plus decimal value
(`{"currency": "USD", "value": str(product.salePrice)}`). -/
structure PaymentAmount where
  currency : String
  value : ℚ
deriving DecidableEq, Repr

/-- `PaymentItem` from `ap2.types.payment_request`: a label and an amount. -/
structure PaymentItem where
  label : String
  amount : PaymentAmount
deriving DecidableEq, Repr

/-- `BestBuyProduct` (pydantic model in `bestbuy_client.py`). -/
structure BestBuyProduct where
  sku : Int
  name : String
  salePrice : ℚ
  regularPrice : Option ℚ := none
  manufacturer : Option String := none
  modelNumber : Option String := none
  shortDescription : Option String := none
  image : Option String := none
  url : Option String := none
  customerReviewAverage : Option ℚ := none
  inStoreAvailability : Option Bool := none
  onlineAvailability : Option Bool := none
deriving DecidableEq, Repr

/-! ## Relevance filter (`_filter_relevant_products` in `catalog_agent.py`)

The LLM ranking call is modelled by `ranking : Option (List Int)`:
`none` when `generate_content` (or parsing its response) raised, and
`some idxs` when it returned the JSON integer array `idxs`. -/

/-- The index-selection loop of `_filter_relevant_products`:
`for idx in selected_indices: if 0 <= idx < len(products): append products[idx]`. -/
def rankingSelect (products : List α) (idxs : List Int) : List α :=
  idxs.filterMap fun i => if 0 ≤ i then products.get? i.toNat else none

/-- `_filter_relevant_products(products, intent, max_results)` together with a
flag recording whether the external ranking call was issued (the early
return happens before `genai.Client()` is ever constructed). -/
def filterRelevantProductsRun (products : List α) (maxResults : Nat)
    (ranking : Option (List Int)) : List α × Bool :=
  if products.length ≤ maxResults then
    (products, false)
  else
    match ranking with
    | none => (products.take maxResults, true)
    | some idxs =>
        let relevant := rankingSelect products idxs
        (if relevant.isEmpty then products.take maxResults else relevant, true)

/-- The list returned by `_filter_relevant_products`. -/
def filterRelevantProducts (products : List α) (maxResults : Nat)
    (ranking : Option (List Int)) : List α :=
  (filterRelevantProductsRun products maxResults ranking).1

/-! ## Best Buy client (`bestbuy_client.py`) -/

/-- Python's substring test `needle in hay`. -/
def strContains (hay needle : String) : Bool :=
  hay.data.tails.any fun t => needle.data.isPrefixOf t

/-- Python's `str.lower()` (ASCII case mapping, which covers every string
this pipeline lowercases). -/
def strLower (s : String) : String :=
  String.mk (s.data.map Char.toLower)

/-- The `demo_catalog` dict of `_get_demo_products`, in insertion order. -/
def demoCatalog : List (String × List BestBuyProduct) :=
  [("coffee",
    [{ sku := 6446101,
       name := "Keurig K-Elite Single-Serve K-Cup Pod Coffee Maker",
       salePrice := 169.99, regularPrice := some 189.99,
       manufacturer := some "Keurig", modelNumber := some "K90",
       shortDescription := some "Brew your favorite coffee, tea, hot cocoa and more with this Keurig K-Elite coffee maker.",
       image := some "https://pisces.bbystatic.com/image2/BestBuy_US/images/products/6446/6446101_sd.jpg",
       url := some "https://www.bestbuy.com/site/6446101.p",
       customerReviewAverage := some 4.5,
       inStoreAvailability := some true, onlineAvailability := some true },
     { sku := 6120833,
       name := "Ninja 12-Cup Programmable Coffee Maker",
       salePrice := 89.99, regularPrice := some 99.99,
       manufacturer := some "Ninja", modelNumber := some "CE251",
       shortDescription := some "Classic coffee maker with advanced features for a perfect cup every time.",
       image := some "https://pisces.bbystatic.com/image2/BestBuy_US/images/products/6120/6120833_sd.jpg",
       url := some "https://www.bestbuy.com/site/6120833.p",
       customerReviewAverage := some 4.7,
       inStoreAvailability := some true, onlineAvailability := some true },
     { sku := 6372886,
       name := "Mr. Coffee 5-Cup Mini Brew Coffee Maker",
       salePrice := 24.99, regularPrice := some 29.99,
       manufacturer := some "Mr. Coffee", modelNumber := some "BVMC-PSTX",
       shortDescription := some "Compact coffee maker perfect for small spaces.",
       image := some "https://pisces.bbystatic.com/image2/BestBuy_US/images/products/6372/6372886_sd.jpg",
       url := some "https://www.bestbuy.com/site/6372886.p",
       customerReviewAverage := some 4.2,
       inStoreAvailability := some true, onlineAvailability := some true }]),
   ("laptop",
    [{ sku := 6534616,
       name := "MacBook Air 13.6\" Laptop - Apple M2 chip - 8GB Memory - 256GB SSD",
       salePrice := 999.99, regularPrice := some 1199.99,
       manufacturer := some "Apple", modelNumber := some "MLY33LL/A",
       shortDescription := some "Supercharged by M2 chip for incredible performance.",
       image := some "https://pisces.bbystatic.com/image2/BestBuy_US/images/products/6534/6534616_sd.jpg",
       url := some "https://www.bestbuy.com/site/6534616.p",
       customerReviewAverage := some 4.8,
       inStoreAvailability := some true, onlineAvailability := some true },
     { sku := 6515649,
       name := "HP 15.6\" Touch-Screen Laptop - Intel Core i5 - 8GB Memory - 256GB SSD",
       salePrice := 499.99, regularPrice := some 599.99,
       manufacturer := some "HP", modelNumber := some "15-dy2795wm",
       shortDescription := some "Reliable performance for everyday computing.",
       image := some "https://pisces.bbystatic.com/image2/BestBuy_US/images/products/6515/6515649_sd.jpg",
       url := some "https://www.bestbuy.com/site/6515649.p",
       customerReviewAverage := some 4.3,
       inStoreAvailability := some true, onlineAvailability := some true },
     { sku := 6542175,
       name := "Dell Inspiron 2-in-1 14\" Touch-Screen Laptop - Intel Core i7 - 16GB Memory",
       salePrice := 799.99, regularPrice := some 999.99,
       manufacturer := some "Dell", modelNumber := some "I7420-7683BLU-PUS",
       shortDescription := some "Versatile 2-in-1 design for work and entertainment.",
       image := some "https://pisces.bbystatic.com/image2/BestBuy_US/images/products/6542/6542175_sd.jpg",
       url := some "https://www.bestbuy.com/site/6542175.p",
       customerReviewAverage := some 4.6,
       inStoreAvailability := some false, onlineAvailability := some true }]),
   ("headphones",
    [{ sku := 6505727,
       name := "Sony WH-1000XM5 Wireless Noise-Cancelling Over-the-Ear Headphones",
       salePrice := 349.99, regularPrice := some 399.99,
       manufacturer := some "Sony", modelNumber := some "WH1000XM5/B",
       shortDescription := some "Industry-leading noise cancellation with premium sound quality.",
       image := some "https://pisces.bbystatic.com/image2/BestBuy_US/images/products/6505/6505727_sd.jpg",
       url := some "https://www.bestbuy.com/site/6505727.p",
       customerReviewAverage := some 4.9,
       inStoreAvailability := some true, onlineAvailability := some true },
     { sku := 6447909,
       name := "Apple AirPods Pro (2nd generation) with MagSafe Case",
       salePrice := 199.99, regularPrice := some 249.99,
       manufacturer := some "Apple", modelNumber := some "MTJV3AM/A",
       shortDescription := some "Active Noise Cancellation and Transparency mode.",
       image := some "https://pisces.bbystatic.com/image2/BestBuy_US/images/products/6447/6447909_sd.jpg",
       url := some "https://www.bestbuy.com/site/6447909.p",
       customerReviewAverage := some 4.8,
       inStoreAvailability := some true, onlineAvailability := some true },
     { sku := 6428457,
       name := "Beats Studio3 Wireless Noise Cancelling Over-Ear Headphones",
       salePrice := 199.99, regularPrice := some 349.99,
       manufacturer := some "Beats by Dr. Dre", modelNumber := some "MX3X2LL/A",
       shortDescription := some "Pure adaptive noise canceling with premium sound.",
       image := some "https://pisces.bbystatic.com/image2/BestBuy_US/images/products/6428/6428457_sd.jpg",
       url := some "https://www.bestbuy.com/site/6428457.p",
       customerReviewAverage := some 4.5,
       inStoreAvailability := some true, onlineAvailability := some true }]),
   ("tv",
    [{ sku := 6536735,
       name := "Samsung 65\" Class QLED 4K UHD Smart Tizen TV",
       salePrice := 897.99, regularPrice := some 1299.99,
       manufacturer := some "Samsung", modelNumber := some "QN65Q60CAFXZA",
       shortDescription := some "Quantum Dot technology for brilliant colors.",
       image := some "https://pisces.bbystatic.com/image2/BestBuy_US/images/products/6536/6536735_sd.jpg",
       url := some "https://www.bestbuy.com/site/6536735.p",
       customerReviewAverage := some 4.6,
       inStoreAvailability := some true, onlineAvailability := some true },
     { sku := 6522019,
       name := "LG 55\" Class OLED evo C3 Series Smart TV",
       salePrice := 1299.99, regularPrice := some 1799.99,
       manufacturer := some "LG", modelNumber := some "OLED55C3PUA",
       shortDescription := some "Self-lit OLED pixels for perfect black and infinite contrast.",
       image := some "https://pisces.bbystatic.com/image2/BestBuy_US/images/products/6522/6522019_sd.jpg",
       url := some "https://www.bestbuy.com/site/6522019.p",
       customerReviewAverage := some 4.8,
       inStoreAvailability := some false, onlineAvailability := some true },
     { sku := 6501901,
       name := "TCL 50\" Class S4 4K UHD HDR LED Smart TV with Google TV",
       salePrice := 249.99, regularPrice := some 329.99,
       manufacturer := some "TCL", modelNumber := some "50S450G",
       shortDescription := some "Stunning 4K picture quality at an incredible value.",
       image := some "https://pisces.bbystatic.com/image2/BestBuy_US/images/products/6501/6501901_sd.jpg",
       url := some "https://www.bestbuy.com/site/6501901.p",
       customerReviewAverage := some 4.4,
       inStoreAvailability := some true, onlineAvailability := some true }])]

/-- `_get_demo_products(query, count)`: first category key that is a
substring of the lowercased query wins; otherwise the first `count` items
of the concatenated default pool. -/
def getDemoProducts (query : String) (count : Nat) : List BestBuyProduct :=
  let queryLower := strLower query
  match demoCatalog.find? (fun cp => strContains queryLower cp.1) with
  | some cp => cp.2.take count
  | none => ((demoCatalog.map Prod.snd).flatten).take count

/-- The full sample pool (every product of every demo category). -/
def demoSamplePool : List BestBuyProduct :=
  (demoCatalog.map Prod.snd).flatten

/-- One semantic criterion of the Best Buy products query string built in
`search_products` (each corresponds to one `search_criteria` entry). -/
inductive Criterion where
  | search (query : String)
  | categoryPathId (categoryId : String)
  | typeHardgood
  | salePriceGe (minPrice : ℚ)
  | salePriceLe (maxPrice : ℚ)
deriving DecidableEq, Repr

/-- The `search_criteria` list built by `search_products` on the non-demo
path, in construction order. -/
def buildSearchCriteria (query : String) (categoryId : Option String)
    (minPrice maxPrice : Option ℚ) : List Criterion :=
  let c := [Criterion.search query]
  let c := match categoryId with
    | some cid => c ++ [Criterion.categoryPathId cid]
    | none => c
  let c := c ++ [Criterion.typeHardgood]
  let effectiveMinPrice := match minPrice with
    | some p => p
    | none => 50
  let c := c ++ [Criterion.salePriceGe effectiveMinPrice]
  match maxPrice with
  | some mp => c ++ [Criterion.salePriceLe mp]
  | none => c

/-- Extracts the minimum-price bound from a criterion, if it is one. -/
def minPriceOf : Criterion → Option ℚ
  | Criterion.salePriceGe p => some p
  | _ => none

/-- `search_products(query, max_results, min_price, max_price, ...)`.
`demoMode` is `self.demo_mode` (true iff no API key is configured).
`categoryOutcome` is what `_detect_category` returned (`none` on failure or
no match).  `api` models the HTTP call plus per-item parsing as a function
of the request criteria: `none` when the transport raised or the response
was non-2xx (`raise_for_status`), `some ps` when parsing the response body
yielded the product list `ps` (empty when the result set was empty or
every item failed to parse; individually malformed items are skipped). -/
def searchProducts (demoMode : Bool) (query : String) (maxResults : Nat)
    (minPrice maxPrice : Option ℚ) (categoryOutcome : Option String)
    (api : List Criterion → Option (List BestBuyProduct)) :
    List BestBuyProduct :=
  if demoMode then
    getDemoProducts query maxResults
  else
    let criteria := buildSearchCriteria query categoryOutcome minPrice maxPrice
    match api criteria with
    | none => getDemoProducts query maxResults
    | some products =>
        if products.isEmpty then getDemoProducts query maxResults
        else products

/-! ## Offer assembler (`_create_and_add_cart_mandate_artifact`)

Timestamps are seconds; `timedelta(minutes=30)` is 1800 seconds. -/

/-- `PaymentDetailsInit` fields used by the pipeline. -/
structure PaymentDetailsInit where
  id : String
  display_items : List PaymentItem
  total : PaymentItem
deriving DecidableEq, Repr

/-- `PaymentMethodData` (fixed CARD entry in this pipeline). -/
structure PaymentMethodData where
  supported_methods : String
  networks : List String
deriving DecidableEq, Repr

/-- `PaymentOptions` fields used by the pipeline. -/
structure PaymentOptions where
  request_shipping : Bool
deriving DecidableEq, Repr

/-- `PaymentRequest` fields used by the pipeline. -/
structure PaymentRequest where
  method_data : List PaymentMethodData
  details : PaymentDetailsInit
  options : PaymentOptions
deriving DecidableEq, Repr

/-- `CartContents` from `ap2.types.mandate`. -/
structure CartContents where
  id : String
  user_cart_confirmation_required : Bool
  payment_request : PaymentRequest
  cart_expiry : Nat
  merchant_name : String
deriving DecidableEq, Repr

/-- `CartMandate` (the Offer). -/
structure CartMandate where
  contents : CartContents
deriving DecidableEq, Repr

/-- The metadata side channel stored next to each cart mandate
(`{"description": ..., "image": ..., "url": ...}`). -/
structure CartMetadata where
  description : Option String
  image : Option String
  url : Option String
deriving DecidableEq, Repr

/-- The `CartMandate` built by `_create_and_add_cart_mandate_artifact` for
line item `item`, sequence number `itemCount`, creation time `currentTime`
and merchant `merchantName`. -/
def createCartMandate (item : PaymentItem) (itemCount : Nat)
    (currentTime : Nat) (merchantName : String) : CartMandate :=
  let payment_request : PaymentRequest :=
    { method_data :=
        [{ supported_methods := "CARD",
           networks := ["mastercard", "paypal", "amex"] }],
      details :=
        { id := "order_" ++ toString itemCount,
          display_items := [item],
          total := { label := "Total", amount := item.amount } },
      options := { request_shipping := true } }
  { contents :=
      { id := "cart_" ++ toString itemCount,
        user_cart_confirmation_required := true,
        payment_request := payment_request,
        cart_expiry := currentTime + 30 * 60,
        merchant_name := merchantName } }

/-! ## Pipeline orchestrator (`find_items_workflow`)

The emission trace to the downstream sink (the `TaskUpdater`): each
`updater.add_artifact` call and the terminal `complete()`/`failed()` call
become one event. -/

/-- One record emitted to the downstream sink. -/
inductive Event where
  | offerPair (cartId : String) (mandate : CartMandate) (metadata : CartMetadata)
  | riskRecord (riskData : String)
  | completed
  | failed
deriving DecidableEq, Repr

/-- The single artifact `_create_and_add_cart_mandate_artifact` emits: the
cart mandate and its metadata as one `add_artifact` call, keyed by the
mandate's cart id. -/
def offerEvent (item : PaymentItem) (itemCount : Nat) (currentTime : Nat)
    (merchantName : String) (metadata : CartMetadata) : Event :=
  let cm := createCartMandate item itemCount currentTime merchantName
  Event.offerPair cm.contents.id cm metadata

/-- The `PaymentItem` built from a Best Buy product in the workflow loop. -/
def productPaymentItem (p : BestBuyProduct) : PaymentItem :=
  { label := p.name, amount := { currency := "USD", value := p.salePrice } }

/-- The metadata passed for a Best Buy product in the workflow loop. -/
def productMetadata (p : BestBuyProduct) : CartMetadata :=
  { description := p.shortDescription, image := p.image, url := p.url }

/-- The loop over `relevant_products` (sequence numbers 1..N). -/
def emitProductOffers (products : List BestBuyProduct) (currentTime : Nat) :
    List Event :=
  products.enum.map fun ip =>
    offerEvent (productPaymentItem ip.2) (ip.1 + 1) currentTime "Best Buy"
      (productMetadata ip.2)

/-- The loop of `_generate_fallback_products` over the LLM-generated items
(default merchant name, no metadata fields). -/
def emitFallbackOffers (items : List PaymentItem) (currentTime : Nat) :
    List Event :=
  items.enum.map fun ii =>
    offerEvent ii.2 (ii.1 + 1) currentTime "Generic Merchant"
      { description := none, image := none, url := none }

/-- The risk data constant of `_collect_risk_data` (both in
`catalog_agent.py` and `shopper/tools.py`). -/
def riskDataConstant : String :=
  "eyJhbGciOiJIUzI1NiIsInR5cCI6IkpXVCJ9...fake_risk_data"

/-- `find_items_workflow`: its emission trace as a function of the search
result, the ranking-call outcome (`none` = the call raised) and the
fallback-generation outcome (`none` = the `generate_content` call raised,
which propagates to the outer handler and triggers `updater.failed`). -/
def runWorkflow (products : List BestBuyProduct)
    (ranking : Option (List Int))
    (fallbackItems : Option (List PaymentItem))
    (currentTime : Nat) : List Event :=
  if products.isEmpty then
    match fallbackItems with
    | none => [Event.failed]
    | some items =>
        emitFallbackOffers items currentTime
          ++ [Event.riskRecord riskDataConstant, Event.completed]
  else
    let filtered := filterRelevantProducts products 3 ranking
    let relevant := if filtered.isEmpty then products.take 3 else filtered
    emitProductOffers relevant currentTime
      ++ [Event.riskRecord riskDataConstant, Event.completed]

/-- Whether an event is an atomic (Offer, OfferMetadata) pair. -/
def isOfferPair : Event → Bool
  | Event.offerPair _ _ _ => true
  | _ => false

/-- Whether an event is a terminal completion/failure signal. -/
def isTerminal : Event → Bool
  | Event.completed => true
  | Event.failed => true
  | _ => false

/-- An offer-pair event is atomic and id-consistent: the id under which it
is emitted (and under which its metadata is stored) is the cart mandate's
own id. -/
def eventAtomic : Event → Prop
  | Event.offerPair cartId mandate _ => cartId = mandate.contents.id
  | _ => True

/-- The emission grammar claimed for the sink: zero or more offer pairs,
then exactly one risk record, then one terminal signal. -/
def matchesClaimedGrammar : List Event → Bool
  | Event.offerPair _ _ _ :: rest => matchesClaimedGrammar rest
  | [Event.riskRecord _, e] => isTerminal e
  | _ => false

/-! ## Shopper tools (`shopper/tools.py`) -/

/-- `IntentMandate` fields relevant to `find_products`. -/
structure IntentMandate where
  natural_language_description : String
  user_cart_confirmation_required : Bool
  merchants : List String
  skus : List String
  requires_refundability : Bool
  intent_expiry : Nat
deriving DecidableEq, Repr

/-- The external calls `find_products` can issue (sending the A2A message
to the merchant agent is what triggers catalog search, classification and
ranking downstream). -/
inductive ExternalCall where
  | sendA2aMessage (intent : IntentMandate) (riskData : String)
deriving DecidableEq, Repr

/-- An exception raised by `find_products`: Python's `KeyError` (carrying
the missing key) from the subscript lookup, or a `RuntimeError` with a
message. -/
inductive FindError where
  | keyError (key : String)
  | runtimeError (msg : String)
deriving DecidableEq, Repr

/-- `find_products`, with the subscript lookup
`tool_context.state["intent_mandate"]` modelled faithfully:
`stateIntent = none` means the key is absent (the subscript itself raises
`KeyError('intent_mandate')` before the `if not intent_mandate` guard
runs); `some none` means the key is present but holds a falsy value such
as `None` (a stored pydantic `IntentMandate` is always truthy), which
trips the guard's `RuntimeError`; `some (some im)` means the mandate `im`
is stored.  `riskData` is what `_collect_risk_data` returns.  The result
is the raised error (if any) paired with the external calls issued before
returning or raising. -/
def findProductsAux (stateIntent : Option (Option IntentMandate))
    (riskData : String) : Except FindError IntentMandate × List ExternalCall :=
  match stateIntent with
  | none => (Except.error (FindError.keyError "intent_mandate"), [])
  | some none =>
      (Except.error (FindError.runtimeError
        "No IntentMandate found in tool context state."), [])
  | some (some im) =>
      if riskData.isEmpty then
        (Except.error (FindError.runtimeError
          "No risk data found in tool context state."), [])
      else
        (Except.ok im, [ExternalCall.sendA2aMessage im riskData])

/-- `find_products`: the risk data is always the constant returned by
`_collect_risk_data`. -/
def findProducts (stateIntent : Option (Option IntentMandate)) :
    Except FindError IntentMandate × List ExternalCall :=
  findProductsAux stateIntent riskDataConstant

/-! ## Theorems -/

/-- C1: every cart mandate built by `_create_and_add_cart_mandate_artifact`
has exactly the one passed line item, its total (amount and currency
included) equals the sum of the line items' values, and its expiry is the
creation time plus 30 minutes, hence strictly after the creation time. -/
theorem cartMandate_total_eq_sum_and_expiry (item : PaymentItem)
    (itemCount : Nat) (currentTime : Nat) (merchantName : String) :
    (createCartMandate item itemCount currentTime
        merchantName).contents.payment_request.details.display_items
      = [item] ∧
    (createCartMandate item itemCount currentTime
        merchantName).contents.payment_request.details.total.amount
      = item.amount ∧
    (createCartMandate item itemCount currentTime
        merchantName).contents.payment_request.details.total.amount.value
      = ((createCartMandate item itemCount currentTime
            merchantName).contents.payment_request.details.display_items.map
          (fun li => li.amount.value)).sum ∧
    (createCartMandate item itemCount currentTime
        merchantName).contents.cart_expiry = currentTime + 30 * 60 ∧
    currentTime <
      (createCartMandate item itemCount currentTime
        merchantName).contents.cart_expiry := by
  refine ⟨rfl, rfl, ?_, rfl, ?_⟩
  · simp [createCartMandate]
  · simp [createCartMandate]

/-- C2: when the candidate list already has at most `max_results` elements,
`_filter_relevant_products` returns it unchanged and never issues the
external ranking call. -/
theorem filterRelevantProducts_noop (products : List α) (maxResults : Nat)
    (ranking : Option (List Int)) (h : products.length ≤ maxResults) :
    filterRelevantProductsRun products maxResults ranking
      = (products, false) := by
  simp [filterRelevantProductsRun, h]

/-- C2 witness: two candidates with a desired count of 3 pass through
untouched, with no ranking call. -/
theorem filterRelevantProducts_noop_witness :
    filterRelevantProductsRun [(10 : Nat), 20] 3 (some [1, 0])
      = ([10, 20], false) :=
  filterRelevantProducts_noop [10, 20] 3 (some [1, 0]) (by decide)

/-- C3: when the candidate list is oversupplied and at least one returned
index is in range, `_filter_relevant_products` returns exactly the
candidates at the in-range indices, in the order the indices were given
(out-of-range indices are silently dropped by `rankingSelect`). -/
theorem filterRelevantProducts_ranking (products : List α)
    (idxs : List Int) (maxResults : Nat)
    (hlen : maxResults < products.length)
    (hne : rankingSelect products idxs ≠ []) :
    filterRelevantProducts products maxResults (some idxs)
      = rankingSelect products idxs := by
  have h1 : ¬ products.length ≤ maxResults := Nat.not_le.mpr hlen
  simp only [filterRelevantProducts, filterRelevantProductsRun, if_neg h1]
  simp [List.isEmpty_iff, hne]

/-- C3 witness (Scenario C): ranking response `[2, 7, 20]` against the
10-candidate list `[0, …, 9]` yields the candidates at indices 2 and 7;
index 20 is dropped. -/
theorem filterRelevantProducts_ranking_witness :
    filterRelevantProducts (List.range 10) 3 (some [2, 7, 20]) = [2, 7] :=
  (filterRelevantProducts_ranking (List.range 10) [2, 7, 20] 3 (by decide)
    (by decide)).trans (by decide)

/-- C4 counterexample: a ranking response with four in-range indices
against four candidates and a desired count of 3 makes
`_filter_relevant_products` return all four candidates — the output is not
truncated to the desired count. -/
theorem filterRelevantProducts_length_counterexample :
    ¬ (filterRelevantProducts [(0 : Nat), 1, 2, 3] 3
        (some [0, 1, 2, 3])).length ≤ 3 := by
  decide

/-- C4 amended: whenever the ranking response (if any) contains at most
`desired_count` indices — the length bound the external interface
documents for it — the filter's output has length at most
`desired_count`. -/
theorem filterRelevantProducts_length_le (products : List α)
    (maxResults : Nat) (ranking : Option (List Int))
    (h : ∀ idxs, ranking = some idxs → idxs.length ≤ maxResults) :
    (filterRelevantProducts products maxResults ranking).length
      ≤ maxResults := by
  by_cases h1 : products.length ≤ maxResults
  · simp [filterRelevantProducts, filterRelevantProductsRun, h1]
  · cases ranking with
    | none =>
        simp only [filterRelevantProducts, filterRelevantProductsRun,
          if_neg h1]
        exact List.length_take_le _ _
    | some idxs =>
        simp only [filterRelevantProducts, filterRelevantProductsRun,
          if_neg h1]
        by_cases h2 : (rankingSelect products idxs).isEmpty
        · simp only [h2, if_pos]
          exact List.length_take_le _ _
        · simp only [h2]
          simp only [Bool.false_eq_true, if_false]
          calc (rankingSelect products idxs).length
              ≤ idxs.length := List.length_filterMap_le _ _
            _ ≤ maxResults := h idxs rfl

/-- C4 amended witness: a two-index response against ten candidates with a
desired count of 3 yields at most 3 products. -/
theorem filterRelevantProducts_length_le_witness :
    (filterRelevantProducts (List.range 10) 3 (some [2, 7])).length ≤ 3 :=
  filterRelevantProducts_length_le (List.range 10) 3 (some [2, 7])
    (by intro idxs h; cases h; decide)

/-- C5: when the ranking call raises, or every returned index is out of
range (so the selection is empty), `_filter_relevant_products` returns the
first `desired_count` candidates in input order. -/
theorem filterRelevantProducts_fallback (products : List α)
    (maxResults : Nat) :
    filterRelevantProducts products maxResults none
      = products.take maxResults ∧
    ∀ idxs, rankingSelect products idxs = [] →
      filterRelevantProducts products maxResults (some idxs)
        = products.take maxResults := by
  by_cases h1 : products.length ≤ maxResults
  · constructor
    · simp [filterRelevantProducts, filterRelevantProductsRun, h1,
        List.take_of_length_le h1]
    · intro idxs _
      simp [filterRelevantProducts, filterRelevantProductsRun, h1,
        List.take_of_length_le h1]
  · constructor
    · simp [filterRelevantProducts, filterRelevantProductsRun, h1]
    · intro idxs hsel
      simp [filterRelevantProducts, filterRelevantProductsRun, h1, hsel]

/-- C5 witness (Scenario B): 15 candidates, desired count 3; both a raised
ranking call and an all-out-of-range response fall back to the first 3
candidates in input order. -/
theorem filterRelevantProducts_fallback_witness :
    filterRelevantProducts (List.range 15) 3 none = [0, 1, 2] ∧
    filterRelevantProducts (List.range 15) 3 (some [20, -1]) = [0, 1, 2] :=
  ⟨((filterRelevantProducts_fallback (List.range 15) 3).1).trans (by decide),
   ((filterRelevantProducts_fallback (List.range 15) 3).2 [20, -1]
     (by decide)).trans (by decide)⟩

theorem demoCatalog_snd_ne_nil : ∀ cp ∈ demoCatalog, cp.2 ≠ [] := by
  intro cp hcp
  simp only [demoCatalog, List.mem_cons, List.not_mem_nil, or_false] at hcp
  rcases hcp with h | h | h | h <;> subst h <;> simp

theorem getDemoProducts_ne_nil (query : String) (count : Nat)
    (h : 0 < count) : getDemoProducts query count ≠ [] := by
  unfold getDemoProducts
  cases hf : demoCatalog.find? (fun cp => strContains (strLower query) cp.1) with
  | some cp =>
      simp only [hf]
      intro hcontra
      rcases List.take_eq_nil_iff.mp hcontra with h0 | h0
      · omega
      · exact demoCatalog_snd_ne_nil cp (List.mem_of_find?_eq_some hf) h0
  | none =>
      simp only [hf]
      intro hcontra
      rcases List.take_eq_nil_iff.mp hcontra with h0 | h0
      · omega
      · revert h0
        simp [demoCatalog]

theorem getDemoProducts_subset (query : String) (count : Nat) :
    ∀ p ∈ getDemoProducts query count, p ∈ demoSamplePool := by
  intro p hp
  unfold getDemoProducts at hp
  cases hf : demoCatalog.find? (fun cp => strContains (strLower query) cp.1) with
  | some cp =>
      simp only [hf] at hp
      have hmem : p ∈ cp.2 := List.take_subset count cp.2 hp
      exact List.mem_flatten.mpr
        ⟨cp.2, List.mem_map_of_mem Prod.snd (List.mem_of_find?_eq_some hf),
          hmem⟩
  | none =>
      simp only [hf] at hp
      exact List.take_subset count _ hp

/-- C6: whenever no API key is configured (demo mode), or the catalog call
raises / returns non-2xx, or the whole batch parses to zero products,
`search_products` returns the built-in sample selection
`_get_demo_products(query, count)`, which is non-empty (for a positive
count) and drawn entirely from the fixed sample pool. -/
theorem searchProducts_fallback_sample (demoMode : Bool) (query : String)
    (maxResults : Nat) (minPrice maxPrice : Option ℚ)
    (categoryOutcome : Option String)
    (api : List Criterion → Option (List BestBuyProduct))
    (hfall : demoMode = true ∨
      api (buildSearchCriteria query categoryOutcome minPrice maxPrice)
        = none ∨
      api (buildSearchCriteria query categoryOutcome minPrice maxPrice)
        = some [])
    (hcount : 0 < maxResults) :
    searchProducts demoMode query maxResults minPrice maxPrice
        categoryOutcome api
      = getDemoProducts query maxResults ∧
    getDemoProducts query maxResults ≠ [] ∧
    ∀ p ∈ getDemoProducts query maxResults, p ∈ demoSamplePool := by
  refine ⟨?_, getDemoProducts_ne_nil query maxResults hcount,
    getDemoProducts_subset query maxResults⟩
  rcases hfall with h | h | h
  · simp [searchProducts, h]
  · cases demoMode with
    | true => simp [searchProducts]
    | false => simp [searchProducts, h]
  · cases demoMode with
    | true => simp [searchProducts]
    | false => simp [searchProducts, h]

/-- C6 witness (Scenario A): term "coffee maker" in demo mode returns the
three built-in coffee-maker sample items (skus 6446101, 6120833, 6372886,
in catalog-defined order), each with a non-negative price, all drawn from
the sample pool. -/
theorem searchProducts_fallback_sample_witness :
    searchProducts true "coffee maker" 3 none none none (fun _ => none)
      = getDemoProducts "coffee maker" 3 ∧
    getDemoProducts "coffee maker" 3 ≠ [] ∧
    (∀ p ∈ getDemoProducts "coffee maker" 3, p ∈ demoSamplePool) ∧
    (getDemoProducts "coffee maker" 3).map (fun p => p.sku)
      = [6446101, 6120833, 6372886] ∧
    ∀ p ∈ getDemoProducts "coffee maker" 3, 0 ≤ p.salePrice := by
  obtain ⟨h1, h2, h3⟩ :=
    searchProducts_fallback_sample true "coffee maker" 3 none none none
      (fun _ => none) (Or.inl rfl) (by decide)
  refine ⟨h1, h2, h3, by rfl, ?_⟩
  intro p hp
  simp [getDemoProducts, demoCatalog, strContains, strLower] at hp
  rcases hp with h | h | h <;> subst h <;> norm_num

/-- C7: the products query built by `search_products` carries exactly one
minimum-price bound: 50 currency units when the caller supplies none, and
exactly the caller's value (even below 50) when one is supplied. -/
theorem buildSearchCriteria_min_price_floor (query : String)
    (categoryId : Option String) (maxPrice : Option ℚ) :
    ((buildSearchCriteria query categoryId none maxPrice).filterMap
        minPriceOf = [50]) ∧
    ∀ p : ℚ, (buildSearchCriteria query categoryId (some p)
        maxPrice).filterMap minPriceOf = [p] := by
  constructor
  · cases categoryId <;> cases maxPrice <;>
      simp [buildSearchCriteria, minPriceOf]
  · intro p
    cases categoryId <;> cases maxPrice <;>
      simp [buildSearchCriteria, minPriceOf]

theorem offerEvent_pair_atomic (item : PaymentItem) (n t : Nat)
    (m : String) (md : CartMetadata) :
    isOfferPair (offerEvent item n t m md) = true ∧
      eventAtomic (offerEvent item n t m md) :=
  ⟨rfl, rfl⟩

theorem emitProductOffers_pairs (products : List BestBuyProduct) (t : Nat) :
    ∀ e ∈ emitProductOffers products t,
      isOfferPair e = true ∧ eventAtomic e := by
  intro e he
  simp only [emitProductOffers, List.mem_map] at he
  obtain ⟨ip, _, rfl⟩ := he
  exact offerEvent_pair_atomic _ _ _ _ _

theorem emitFallbackOffers_pairs (items : List PaymentItem) (t : Nat) :
    ∀ e ∈ emitFallbackOffers items t,
      isOfferPair e = true ∧ eventAtomic e := by
  intro e he
  simp only [emitFallbackOffers, List.mem_map] at he
  obtain ⟨ii, _, rfl⟩ := he
  exact offerEvent_pair_atomic _ _ _ _ _

theorem matchesClaimedGrammar_pairs_append (pairs : List Event) (r : String)
    (term : Event) (hp : ∀ e ∈ pairs, isOfferPair e = true)
    (ht : isTerminal term = true) :
    matchesClaimedGrammar (pairs ++ [Event.riskRecord r, term]) = true := by
  induction pairs with
  | nil => simpa [matchesClaimedGrammar] using ht
  | cons e rest ih =>
      have he := hp e (List.mem_cons_self e rest)
      cases e with
      | offerPair cid m md =>
          simpa [matchesClaimedGrammar] using
            ih fun x hx => hp x (List.mem_cons_of_mem _ hx)
      | riskRecord s => simp [isOfferPair] at he
      | completed => simp [isOfferPair] at he
      | failed => simp [isOfferPair] at he

/-- C8 counterexample: the run with an empty search result and a failing
placeholder generation emits only the failure signal — no RiskToken record
precedes the terminal signal, so the claimed emission grammar (offer pairs,
then exactly one RiskToken record, then a terminal signal) is violated. -/
theorem runWorkflow_grammar_counterexample :
    runWorkflow [] none none 0 = [Event.failed] ∧
    matchesClaimedGrammar (runWorkflow [] none none 0) = false :=
  ⟨rfl, rfl⟩

/-- C8 amended: every run either emits zero or more atomic
(Offer, OfferMetadata) pairs — each as one record whose emission id is the
mandate's own cart id — followed by exactly one RiskToken record and the
completion signal (and then matches the claimed grammar), or fails before
emitting anything, emitting only the failure signal with no RiskToken
record. -/
theorem runWorkflow_emission_structure (products : List BestBuyProduct)
    (ranking : Option (List Int))
    (fallbackItems : Option (List PaymentItem)) (t : Nat) :
    (∃ pairs, (∀ e ∈ pairs, isOfferPair e = true ∧ eventAtomic e) ∧
      runWorkflow products ranking fallbackItems t
        = pairs ++ [Event.riskRecord riskDataConstant, Event.completed] ∧
      matchesClaimedGrammar (runWorkflow products ranking fallbackItems t)
        = true) ∨
    runWorkflow products ranking fallbackItems t = [Event.failed] := by
  by_cases hp : products.isEmpty
  · cases fallbackItems with
    | none =>
        right
        simp [runWorkflow, hp]
    | some items =>
        left
        refine ⟨emitFallbackOffers items t, emitFallbackOffers_pairs items t,
          by simp [runWorkflow, hp], ?_⟩
        have htrace : runWorkflow products ranking (some items) t
            = emitFallbackOffers items t
              ++ [Event.riskRecord riskDataConstant, Event.completed] := by
          simp [runWorkflow, hp]
        rw [htrace]
        exact matchesClaimedGrammar_pairs_append _ _ _
          (fun e he => (emitFallbackOffers_pairs items t e he).1) rfl
  · left
    refine ⟨emitProductOffers
        (if (filterRelevantProducts products 3 ranking).isEmpty then
          products.take 3
        else filterRelevantProducts products 3 ranking) t,
      emitProductOffers_pairs _ t, ?_, ?_⟩
    · simp [runWorkflow, hp]
    · have htrace : runWorkflow products ranking fallbackItems t
          = emitProductOffers
              (if (filterRelevantProducts products 3 ranking).isEmpty then
                products.take 3
              else filterRelevantProducts products 3 ranking) t
            ++ [Event.riskRecord riskDataConstant, Event.completed] := by
        simp [runWorkflow, hp]
      rw [htrace]
      exact matchesClaimedGrammar_pairs_append _ _ _
        (fun e he => (emitProductOffers_pairs _ t e he).1) rfl

/-- C9 counterexample: when the `intent_mandate` key is absent from the
tool context state — the natural "Intent missing at pipeline start" case —
`find_products` raises `KeyError('intent_mandate')` from the subscript
lookup itself, not a descriptive configuration-error `RuntimeError`:
neither the `No IntentMandate` nor the `No risk data` message is produced
(though still no external call is made). -/
theorem findProducts_missing_key_counterexample :
    (findProducts none).1
      = Except.error (FindError.keyError "intent_mandate") ∧
    (findProducts none).1
      ≠ Except.error (FindError.runtimeError
          "No IntentMandate found in tool context state.") ∧
    (findProducts none).1
      ≠ Except.error (FindError.runtimeError
          "No risk data found in tool context state.") ∧
    (findProducts none).2 = [] := by
  refine ⟨rfl, ?_, ?_, rfl⟩ <;>
    exact fun hcontra => absurd (Except.error.inj hcontra) (by decide)

/-- C9 amended: when the Intent or the risk data is missing at pipeline
start, `find_products` fails before any external call is made (the
merchant-agent message that triggers catalog search, classification and
ranking is never sent); the failure carries the descriptive
configuration-error message (`No IntentMandate` / `No risk data`) when the
Intent key is present but holds no mandate, or the risk data is empty,
while an absent Intent key raises a bare `KeyError` naming the key. -/
theorem findProductsAux_missing_fails_early
    (stateIntent : Option (Option IntentMandate)) (riskData : String)
    (h : stateIntent = none ∨ stateIntent = some none ∨ riskData = "") :
    (findProductsAux stateIntent riskData).2 = [] ∧
    (stateIntent = none →
      (findProductsAux stateIntent riskData).1
        = Except.error (FindError.keyError "intent_mandate")) ∧
    (stateIntent = some none →
      (findProductsAux stateIntent riskData).1
        = Except.error (FindError.runtimeError
            "No IntentMandate found in tool context state.")) ∧
    (∀ im, stateIntent = some (some im) → riskData = "" →
      (findProductsAux stateIntent riskData).1
        = Except.error (FindError.runtimeError
            "No risk data found in tool context state.")) := by
  refine ⟨?_, ?_, ?_, ?_⟩
  · rcases h with h | h | h
    · subst h; rfl
    · subst h; rfl
    · subst h
      cases stateIntent with
      | none => rfl
      | some v =>
          cases v with
          | none => rfl
          | some im => rfl
  · intro h0; subst h0; rfl
  · intro h0; subst h0; rfl
  · intro im h0 h1
    subst h0
    subst h1
    rfl

/-- C9 amended witness (Scenario E variants): an absent Intent key fails
with `KeyError('intent_mandate')`, a stored `None` Intent fails with the
descriptive `No IntentMandate` message, and in both cases the external
call list is empty. -/
theorem findProductsAux_missing_fails_early_witness :
    ((findProductsAux none riskDataConstant).2 = [] ∧
      (findProductsAux none riskDataConstant).1
        = Except.error (FindError.keyError "intent_mandate")) ∧
    ((findProductsAux (some none) riskDataConstant).2 = [] ∧
      (findProductsAux (some none) riskDataConstant).1
        = Except.error (FindError.runtimeError
            "No IntentMandate found in tool context state.")) :=
  ⟨⟨(findProductsAux_missing_fails_early none riskDataConstant
        (Or.inl rfl)).1,
    (findProductsAux_missing_fails_early none riskDataConstant
        (Or.inl rfl)).2.1 rfl⟩,
   ⟨(findProductsAux_missing_fails_early (some none) riskDataConstant
        (Or.inr (Or.inl rfl))).1,
    (findProductsAux_missing_fails_early (some none) riskDataConstant
        (Or.inr (Or.inl rfl))).2.2.1 rfl⟩⟩

/-- C10: `_collect_risk_data` returns a fixed non-empty constant, so the
`No risk data found` branch of `find_products` is unreachable, and every
discovery session sends the identical risk token to the merchant agent. -/
theorem findProducts_risk_branch_unreachable :
    riskDataConstant ≠ "" ∧
    (∀ st : Option (Option IntentMandate), (findProducts st).1
      ≠ Except.error (FindError.runtimeError
          "No risk data found in tool context state.")) ∧
    ∀ im : IntentMandate, findProducts (some (some im))
      = (Except.ok im, [ExternalCall.sendA2aMessage im riskDataConstant]) := by
  have hne : riskDataConstant.isEmpty = false := by decide
  refine ⟨by decide, ?_, ?_⟩
  · intro st
    cases st with
    | none => simp [findProducts, findProductsAux]
    | some v =>
        cases v with
        | none => simp [findProducts, findProductsAux]
        | some im => simp [findProducts, findProductsAux, hne]
  · intro im
    simp [findProducts, findProductsAux, hne]

end AP2
